import Mathlib

/-!
Shallow embedding of `src/server/app.py` (On-Demand Project Deployment
Orchestrator): the global rate limiter (`load_deployment_log`,
`check_global_rate_limit`, `record_deployment`), the single instance slot
(`ACTIVE_INSTANCE`), and the orchestration functions
(`terminate_all_instances`, `create_spot_instance`, `auto_terminate`,
`get_active_instance_status`).

Modelling conventions:
- Timestamps are `Int` seconds.  The source stores `datetime.now().isoformat()`
  strings and compares them lexicographically; for timestamps produced by the
  same clock and format, string order agrees with chronological order, and
  `datetime.fromisoformat(t) + timedelta(hours=1)` corresponds to `t + 3600`.
- File-system and subprocess effects are passed explicitly: the persistent log
  is threaded as a value, and each `gcloud` invocation's outcome is a
  parameter describing what the external world returned.
- Python exceptions caught by the source's `try`/`except` blocks appear as
  explicit outcome constructors.
-/

namespace OnDemand

/-- app.py line 60: `MAX_DEPLOYMENTS_PER_HOUR = 3`. -/
def MAX_DEPLOYMENTS_PER_HOUR : Nat := 3

/-- app.py line 48: default `SPOT_INSTANCE_LIFETIME_HOURS = 2`. -/
def SPOT_INSTANCE_LIFETIME_HOURS : Nat := 2

/-- One entry of the `recruiters` audit list (app.py lines 107-111): the
recruiter info dict plus the timestamp and source IP added at record time.
The recruiter info itself (name, email, company, recaptcha score) is opaque
to every claim, so it is kept as one `String` field. -/
structure RecruiterEntry where
  info : String
  timestamp : Int
  ip : String
deriving DecidableEq, Repr

/-- The persistent deployment log file content (app.py line 71 shows its
shape): `{"deployments": [...], "recruiters": [...]}`. -/
structure LogData where
  deployments : List Int
  recruiters : List RecruiterEntry
deriving DecidableEq, Repr

/-- The default log returned when the file is missing or unreadable
(app.py line 71). -/
def emptyLog : LogData := { deployments := [], recruiters := [] }

/-- State of the persistent log file as `load_deployment_log` can encounter
it: absent, raising on open (permissions), raising on `json.load`
(malformed JSON), or holding a parsed log. -/
inductive LogFileState
  | missing
  | unreadable
  | malformedJson
  | valid (data : LogData)
deriving DecidableEq

/-- app.py lines 63-71, `load_deployment_log`: returns the parsed file
content; on a missing file or any exception (unreadable file, malformed
JSON) falls through to the default `{"deployments": [], "recruiters": []}`. -/
def load_deployment_log : LogFileState → LogData
  | .missing => emptyLog
  | .unreadable => emptyLog
  | .malformedJson => emptyLog
  | .valid data => data

/-- Python's `min` over a list of timestamps (app.py line 96).  The source
only calls it on a provably non-empty list (`len(recent_deployments) >=
MAX_DEPLOYMENTS_PER_HOUR > 0`); the `getD 0` default is unreachable there. -/
def pyMin (l : List Int) : Int := (l.min?).getD 0

/-- app.py lines 82-100, `check_global_rate_limit`: loads the log, filters
deployments to those strictly inside the trailing one-hour window, writes the
pruned list back to storage, and returns `(allowed, remaining, reset_time)`.
The first component of the result is the returned triple; the second is the
log as saved back to the file.  `remaining` is `Int` because the source
computes it by plain integer subtraction before any branch. -/
def check_global_rate_limit (now : Int) (log : LogData) :
    (Bool × Int × Option Int) × LogData :=
  let deployments := log.deployments
  let one_hour_ago := now - 3600
  let recent_deployments := deployments.filter (fun d => one_hour_ago < d)
  let newLog : LogData := { log with deployments := recent_deployments }
  let remaining : Int := (MAX_DEPLOYMENTS_PER_HOUR : Int) - recent_deployments.length
  if MAX_DEPLOYMENTS_PER_HOUR ≤ recent_deployments.length then
    ((false, 0, some (pyMin recent_deployments + 3600)), newLog)
  else
    ((true, remaining, none), newLog)

/-- app.py lines 102-113, `record_deployment`: appends the current timestamp
to `deployments` and a recruiter entry (info, timestamp, request IP) to
`recruiters`, then saves. -/
def record_deployment (recruiter_info : String) (ip : String) (now : Int)
    (log : LogData) : LogData :=
  { deployments := log.deployments ++ [now]
    recruiters := log.recruiters ++ [{ info := recruiter_info, timestamp := now, ip := ip }] }

/-- The in-window deployment count `check_global_rate_limit` works with. -/
def inWindowCount (now : Int) (log : LogData) : Nat :=
  (log.deployments.filter (fun d => now - 3600 < d)).length

/-- One entry of the hardcoded `PROJECTS` catalog (app.py lines 206-234);
the fields the orchestration code reads. -/
structure Project where
  name : String
  github_url : String
  autoconfig_script : String
  port : Nat
deriving DecidableEq, Repr

/-- app.py lines 207-220: the `setu-voice-ondc` catalog entry. -/
def setuVoiceOndc : Project :=
  { name := "Setu Voice ONDC Gateway"
    github_url := "https://github.com/divyamohan1993/setu-voice-ondc-gateway"
    autoconfig_script := "autoconfig.sh"
    port := 3000 }

/-- app.py lines 221-233: the `cityguard-response-hub` catalog entry. -/
def cityguardResponseHub : Project :=
  { name := "CityGuard Response Hub"
    github_url := "https://github.com/divyamohan1993/cityguard-response-hub"
    autoconfig_script := "autoconfig.sh"
    port := 3000 }

/-- app.py lines 206-234: the fixed project catalog, as an association list. -/
def PROJECTS : List (String × Project) :=
  [("setu-voice-ondc", setuVoiceOndc), ("cityguard-response-hub", cityguardResponseHub)]

/-- `PROJECTS.get(project_id)` (app.py lines 284, 395). -/
def findProject (project_id : String) : Option Project :=
  (PROJECTS.find? (fun kv => kv.1 == project_id)).map (fun kv => kv.2)

/-- Decimal rendering of a non-negative integer, embedding the way Python's
f-string renders `int(time.time())` at app.py line 405.  Structurally
recursive on a fuel argument so that concrete names reduce by `rfl`;
`natToDecimal` supplies sufficient fuel (`n / 10 < n`, so `n + 1` steps
always finish). -/
def natToDecimalAux : Nat → Nat → List Char
  | 0, _ => []
  | fuel + 1, n =>
    if n < 10 then [Char.ofNat (48 + n)]
    else natToDecimalAux fuel (n / 10) ++ [Char.ofNat (48 + n % 10)]

/-- Decimal digits of `n`, most significant first. -/
def natToDecimal (n : Nat) : List Char := natToDecimalAux (n + 1) n

/-- app.py lines 404-405: `instance_name = f"demo-{project_id}-{timestamp}"`
with `timestamp = int(time.time())` (epoch seconds). -/
def gen_instance_name (project_id : String) (timestamp : Nat) : String :=
  "demo-" ++ project_id ++ "-" ++ String.mk (natToDecimal timestamp)

/-- The in-memory descriptor stored in `ACTIVE_INSTANCE` (app.py lines
447-455).  The embedded `project` dict and recruiter info are kept as the
catalog entry and an opaque string. -/
structure ActiveInstance where
  project_id : String
  instance_name : String
  external_ip : Option String
  created_at : Int
  expires_at : Int
  project : Project
  recruiter : String
deriving DecidableEq, Repr

/-- One `gcloud compute instances` invocation issued to the provider, in the
order the orchestrator issues them. -/
inductive GatewayCall
  | delete (name : String)
  | list
  | create (name : String)
  | describe (name : String)
deriving DecidableEq, Repr

/-- Python's `name.startswith("demo-")` (app.py line 374), embedded as a
character-level prefix test. -/
def startsWithDemo (s : String) : Bool := "demo-".data.isPrefixOf s.data

/-- One row of the parsed `gcloud compute instances list` output (app.py
lines 370-374): the resource name and the zone tail. -/
structure Orphan where
  name : String
  zone : String
deriving DecidableEq, Repr

/-- Result of `terminate_all_instances`: the names it attempted to delete,
the slot afterwards, and the gateway calls it issued, in order. -/
structure TerminateStep where
  terminated : List String
  slot : Option ActiveInstance
  trace : List GatewayCall
deriving DecidableEq, Repr

/-- app.py lines 338-389, `terminate_all_instances`: if the slot is occupied,
issue a delete for the occupant's name and clear the slot (the `except`
around the delete swallows failures, and `ACTIVE_INSTANCE = None` runs
either way); then list instances (`--filter=name~^demo-`) and delete every
listed resource whose name starts with `demo-`.  `listResult` is the parsed
output of the list call, `none` when it exited non-zero, produced no output,
or raised (all of which the source treats as "no orphans"). -/
def terminate_all_instances (slot : Option ActiveInstance)
    (listResult : Option (List Orphan)) : TerminateStep :=
  let tracked : List String × List GatewayCall :=
    match slot with
    | some inst => ([inst.instance_name], [GatewayCall.delete inst.instance_name])
    | none => ([], [])
  let orphans : List Orphan :=
    match listResult with
    | some insts => insts.filter (fun o => startsWithDemo o.name)
    | none => []
  { terminated := tracked.1 ++ orphans.map (fun o => o.name)
    slot := none
    trace := tracked.2 ++ [GatewayCall.list] ++ orphans.map (fun o => GatewayCall.delete o.name) }

/-- Parsed JSON of a created or described instance, restricted to the fields
the source reads: `status` (absent keys fall back to `"UNKNOWN"`, app.py line
502) and `networkInterfaces[0].accessConfigs[0].natIP` when present (app.py
lines 438-443, 504-509). -/
structure GcpInstance where
  status : Option String
  natIP : Option String
deriving DecidableEq, Repr

/-- Outcome of the `gcloud compute instances create` subprocess (app.py line
429): non-zero exit with stderr text, `subprocess.TimeoutExpired`, any other
exception, or exit 0 with parsed JSON. -/
inductive CreateOutcome
  | exitNonZero (stderr : String)
  | timeout
  | exn (msg : String)
  | ok (inst : GcpInstance)
deriving DecidableEq, Repr

/-- Result returned by `create_spot_instance` to its caller, restricted to
the fields the claims mention. -/
inductive DeployResult
  | error (msg : String)
  | success (instance_name : String) (external_ip : Option String) (port : Nat)
      (expires_at : Int)
deriving DecidableEq, Repr

/-- Full effect of one `create_spot_instance` call: the returned value, the
slot afterwards, the persistent log afterwards, and the gateway calls
issued, in order. -/
structure DeployStep where
  result : DeployResult
  slot : Option ActiveInstance
  log : LogData
  trace : List GatewayCall
deriving DecidableEq, Repr

/-- app.py lines 391-477, `create_spot_instance`: reject an unknown project;
otherwise run `terminate_all_instances`, generate the instance name from the
project id and epoch-second timestamp, and issue the create call.  On any
create failure (non-zero exit, timeout, exception) return the error with the
slot left as termination left it (empty) and the log untouched; on success
install the new descriptor in the slot, record the deployment, and spawn the
`auto_terminate` timer thread.  `generate_startup_script` returns `None`
only for an unknown project, so its failure branch (line 409) is
unreachable here.  `timestamp` is `int(time.time())` at line 404; `now` is
the `datetime.now()` reads at lines 445/451.  `recruiter_info` and `ip` feed
`record_deployment`. -/
def create_spot_instance (slot : Option ActiveInstance)
    (listResult : Option (List Orphan)) (project_id : String)
    (recruiter_info : String) (ip : String) (timestamp : Nat) (now : Int)
    (outcome : CreateOutcome) (log : LogData) : DeployStep :=
  match findProject project_id with
  | none => { result := .error "Invalid project", slot := slot, log := log, trace := [] }
  | some project =>
    let term := terminate_all_instances slot listResult
    let instance_name := gen_instance_name project_id timestamp
    let trace := term.trace ++ [GatewayCall.create instance_name]
    match outcome with
    | .exitNonZero stderr =>
      { result := .error ("Failed to create instance: " ++ stderr)
        slot := term.slot, log := log, trace := trace }
    | .timeout =>
      { result := .error "Instance creation timed out"
        slot := term.slot, log := log, trace := trace }
    | .exn msg =>
      { result := .error msg, slot := term.slot, log := log, trace := trace }
    | .ok inst =>
      let expires_at := now + (SPOT_INSTANCE_LIFETIME_HOURS : Int) * 3600
      let newInst : ActiveInstance :=
        { project_id := project_id
          instance_name := instance_name
          external_ip := inst.natIP
          created_at := now
          expires_at := expires_at
          project := project
          recruiter := recruiter_info }
      { result := .success instance_name inst.natIP project.port expires_at
        slot := some newInst
        log := record_deployment recruiter_info ip now log
        trace := trace }

/-- app.py lines 459-463, `auto_terminate`: the timer body spawned by a
successful deploy sleeps for the instance lifetime and then calls
`terminate_all_instances()` unconditionally.  It captures no instance name
and performs no re-check; its effect is applied to whatever slot state holds
when it fires. -/
def auto_terminate (slotAtFiring : Option ActiveInstance)
    (listResult : Option (List Orphan)) : TerminateStep :=
  terminate_all_instances slotAtFiring listResult

/-- Outcome of the `gcloud compute instances describe` subprocess (app.py
line 495), separated by what the provider reported: the resource does not
exist (gcloud exits non-zero), a transient provider/gateway failure (gcloud
also exits non-zero), an exception raised by the subprocess call itself
(e.g. `subprocess.TimeoutExpired`, caught at line 533), or exit 0 with
parsed JSON. -/
inductive DescribeOutcome
  | notFound
  | gatewayError (msg : String)
  | timeoutExn (msg : String)
  | ok (inst : GcpInstance)
deriving DecidableEq, Repr

/-- Whether the describe subprocess exits non-zero — the only signal the
source inspects (app.py line 497): true both for a missing resource and for
a transient gateway failure. -/
def describe_exit_nonzero : DescribeOutcome → Bool
  | .notFound => true
  | .gatewayError _ => true
  | .timeoutExn _ => false
  | .ok _ => false

/-- app.py lines 513-519: the `status_map` dict with its `.get(gcp_status,
"unknown")` default (line 522). -/
def status_map (gcp_status : String) : String :=
  if gcp_status = "RUNNING" then "running"
  else if gcp_status = "STAGING" then "starting"
  else if gcp_status = "PROVISIONING" then "starting"
  else if gcp_status = "STOPPING" then "stopping"
  else if gcp_status = "TERMINATED" then "not_running"
  else "unknown"

/-- app.py lines 479-535, `get_active_instance_status`, restricted to the
`status` field of the returned dict and the slot afterwards.  Empty slot:
`not_running`.  Describe exiting non-zero: clear the slot and return
`not_running`.  Describe raising: return `error` with the slot untouched.
Exit 0: map the reported status through `status_map` (missing `status` key
falls back to `"UNKNOWN"`) and refresh the stored `external_ip`. -/
def get_active_instance_status (slot : Option ActiveInstance)
    (outcome : DescribeOutcome) : String × Option ActiveInstance :=
  match slot with
  | none => ("not_running", none)
  | some inst =>
    match outcome with
    | .timeoutExn _ => ("error", some inst)
    | .notFound => ("not_running", none)
    | .gatewayError _ => ("not_running", none)
    | .ok data =>
      let gcp_status := data.status.getD "UNKNOWN"
      (status_map gcp_status, some { inst with external_ip := data.natIP })

/-! ## Helper lemmas -/

theorem min?_exists_of_ne_nil (l : List Int) (h : l ≠ []) : ∃ m, l.min? = some m := by
  cases l with
  | nil => exact absurd rfl h
  | cons a t => exact ⟨_, List.min?_cons⟩

theorem min?_spec (l : List Int) (m : Int) (h : l.min? = some m) :
    m ∈ l ∧ ∀ x ∈ l, m ≤ x := by
  have anti : Std.Antisymm fun x1 x2 : Int => x1 ≤ x2 := ⟨fun h1 h2 => le_antisymm h1 h2⟩
  rw [List.min?_eq_some_iff (fun a => le_refl a) (fun a b => min_choice a b)
    (fun a b c => le_min_iff)] at h
  exact h

theorem natToDecimalAux_irrel : ∀ fuel1 fuel2 n, n < fuel1 → n < fuel2 →
    natToDecimalAux fuel1 n = natToDecimalAux fuel2 n := by
  intro fuel1
  induction fuel1 with
  | zero => intro fuel2 n h1 _; omega
  | succ f ih =>
    intro fuel2 n h1 h2
    cases fuel2 with
    | zero => omega
    | succ g =>
      simp only [natToDecimalAux]
      split
      · rfl
      · have hlt : n / 10 < n := Nat.div_lt_self (by omega) (by omega)
        rw [ih g (n / 10) (by omega) (by omega)]

theorem natToDecimal_eq (n : Nat) : natToDecimal n =
    if n < 10 then [Char.ofNat (48 + n)]
    else natToDecimal (n / 10) ++ [Char.ofNat (48 + n % 10)] := by
  rw [natToDecimal, natToDecimalAux]
  split
  · rfl
  · have hlt : n / 10 < n := Nat.div_lt_self (by omega) (by omega)
    rw [natToDecimal, natToDecimalAux_irrel n (n / 10 + 1) (n / 10) (by omega) (by omega)]

theorem char48_toNat (d : Nat) (h : d < 10) : (Char.ofNat (48 + d)).toNat = 48 + d := by
  interval_cases d <;> decide

theorem natToDecimal_foldl (n : Nat) : ∀ a : Nat,
    (natToDecimal n).foldl (fun a c => 10 * a + (c.toNat - 48)) a =
      a * 10 ^ (natToDecimal n).length + n := by
  induction n using Nat.strong_induction_on with
  | _ n ih =>
    intro a
    rw [natToDecimal_eq n]
    split
    case isTrue h =>
      simp only [List.foldl_cons, List.foldl_nil, List.length_cons, List.length_nil]
      rw [char48_toNat n h]
      ring_nf
      omega
    case isFalse h =>
      have hlt : n / 10 < n := Nat.div_lt_self (by omega) (by omega)
      have hmod : n % 10 < 10 := Nat.mod_lt _ (by omega)
      rw [List.foldl_append, ih (n / 10) hlt a, List.length_append]
      simp only [List.foldl_cons, List.foldl_nil, List.length_cons, List.length_nil]
      rw [char48_toNat _ hmod]
      have hdm : 10 * (n / 10) + n % 10 = n := Nat.div_add_mod n 10
      have hpow : 10 ^ ((natToDecimal (n / 10)).length + (0 + 1)) =
          10 ^ (natToDecimal (n / 10)).length * 10 := by
        rw [Nat.zero_add, pow_succ]
      rw [hpow]
      ring_nf
      omega

theorem natToDecimal_inj (m n : Nat) (h : natToDecimal m = natToDecimal n) : m = n := by
  have hm := natToDecimal_foldl m 0
  have hn := natToDecimal_foldl n 0
  rw [h] at hm
  rw [Nat.zero_mul, Nat.zero_add] at hm hn
  omega

theorem check_snd_eq (now : Int) (log : LogData) :
    (check_global_rate_limit now log).2 =
      { log with deployments := log.deployments.filter (fun d => now - 3600 < d) } := by
  rw [check_global_rate_limit]
  split <;> rfl

theorem gen_instance_name_data (project_id : String) (t : Nat) :
    (gen_instance_name project_id t).data =
      ("demo-" ++ project_id ++ "-").data ++ natToDecimal t := by
  simp [gen_instance_name, String.data_append]

theorem gen_name_same_project_inj (p : String) (t1 t2 : Nat)
    (h : gen_instance_name p t1 = gen_instance_name p t2) : t1 = t2 := by
  have hd := congrArg String.data h
  rw [gen_instance_name_data, gen_instance_name_data] at hd
  exact natToDecimal_inj _ _ (List.append_cancel_left hd)

theorem gen_name_cross_ne (t1 t2 : Nat) :
    gen_instance_name "setu-voice-ondc" t1 ≠ gen_instance_name "cityguard-response-hub" t2 := by
  intro h
  have hd := congrArg String.data h
  rw [gen_instance_name_data, gen_instance_name_data] at hd
  have ht := congrArg (List.take 6) hd
  rw [List.take_append_of_le_length (by decide),
    List.take_append_of_le_length (by decide)] at ht
  exact absurd ht (by decide)

/-- The project identifiers of the static catalog (app.py lines 206-234). -/
def catalogIds : List String := PROJECTS.map (fun kv => kv.1)

/-- The instance names a sequence of deploy calls generates, one call per
`(project_id, epoch-second timestamp)` pair (app.py lines 404-405). -/
def deployNames (calls : List (String × Nat)) : List String :=
  calls.map (fun c => gen_instance_name c.1 c.2)

/-! ## Claim theorems -/

/-- C2: for every log whose count of in-window deployment timestamps
(entries strictly later than `now` minus one hour) equals the ceiling of 3,
`check_global_rate_limit` returns `allowed = false` with `remaining = 0` and
`resetAt` equal to the earliest in-window entry's timestamp plus one hour. -/
theorem check_at_capacity_rejects (now : Int) (log : LogData)
    (h : inWindowCount now log = MAX_DEPLOYMENTS_PER_HOUR) :
    ∃ m, (log.deployments.filter (fun d => now - 3600 < d)).min? = some m ∧
      m ∈ log.deployments.filter (fun d => now - 3600 < d) ∧
      (∀ x ∈ log.deployments.filter (fun d => now - 3600 < d), m ≤ x) ∧
      (check_global_rate_limit now log).1 = (false, 0, some (m + 3600)) := by
  have hlen : (log.deployments.filter (fun d => now - 3600 < d)).length =
      MAX_DEPLOYMENTS_PER_HOUR := h
  have hne : log.deployments.filter (fun d => now - 3600 < d) ≠ [] := by
    intro hnil
    rw [hnil] at hlen
    simp [MAX_DEPLOYMENTS_PER_HOUR] at hlen
  obtain ⟨m, hm⟩ := min?_exists_of_ne_nil _ hne
  obtain ⟨hmem, hle⟩ := min?_spec _ _ hm
  refine ⟨m, hm, hmem, hle, ?_⟩
  rw [check_global_rate_limit]
  simp only [hlen, le_refl, if_true, pyMin, hm, Option.getD_some]

/-- Witness for `check_at_capacity_rejects` at a concrete log with exactly
three in-window entries. -/
theorem check_at_capacity_rejects_witness :
    (check_global_rate_limit 100 (LogData.mk [1, 2, 3] [])).1 = (false, 0, some 3601) := by
  obtain ⟨m, hm, _, _, hres⟩ :=
    check_at_capacity_rejects 100 (LogData.mk [1, 2, 3] []) (by decide)
  have h2 : ((LogData.mk [1, 2, 3] []).deployments.filter
      (fun d => (100 : Int) - 3600 < d)).min? = some 1 := by decide
  rw [hm] at h2
  rw [hres, Option.some.inj h2]
  norm_num

/-- C7: for every `now` and every stored log, `check_global_rate_limit`
returns `remaining` equal to 3 minus the number of logged timestamps
strictly inside the trailing one-hour window, clamped at zero; the returned
value never exceeds 3 and is never negative. -/
theorem check_remaining_clamped (now : Int) (log : LogData) :
    (check_global_rate_limit now log).1.2.1 =
      max ((MAX_DEPLOYMENTS_PER_HOUR : Int) - inWindowCount now log) 0 ∧
    0 ≤ (check_global_rate_limit now log).1.2.1 ∧
    (check_global_rate_limit now log).1.2.1 ≤ (MAX_DEPLOYMENTS_PER_HOUR : Int) := by
  rw [check_global_rate_limit]
  have hcount : inWindowCount now log =
      (log.deployments.filter (fun d => now - 3600 < d)).length := rfl
  rw [hcount]
  split
  case isTrue hc =>
    refine ⟨?_, le_refl 0, by norm_num [MAX_DEPLOYMENTS_PER_HOUR]⟩
    have : (MAX_DEPLOYMENTS_PER_HOUR : Int) -
        (log.deployments.filter (fun d => now - 3600 < d)).length ≤ 0 := by
      simp only [MAX_DEPLOYMENTS_PER_HOUR] at hc ⊢
      omega
    simp only [max_eq_right this]
  case isFalse hc =>
    have h0 : (0 : Int) ≤ (MAX_DEPLOYMENTS_PER_HOUR : Int) -
        (log.deployments.filter (fun d => now - 3600 < d)).length := by
      simp only [MAX_DEPLOYMENTS_PER_HOUR] at hc ⊢
      omega
    refine ⟨(max_eq_left h0).symm, h0, ?_⟩
    simp only [MAX_DEPLOYMENTS_PER_HOUR]
    omega

/-- C9 counterexample: a single `check_global_rate_limit` call on a log
holding one out-of-window entry rewrites the stored deployments to `[]` —
the stored log's length strictly decreases and the older entry is deleted
from storage, refuting monotone non-decreasing length. -/
theorem stored_log_shrinks_cex :
    (check_global_rate_limit 7200 (LogData.mk [0] [])).2.deployments = [] ∧
    (check_global_rate_limit 7200 (LogData.mk [0] [])).2.deployments.length <
      (LogData.mk [0] []).deployments.length ∧
    (0 : Int) ∈ (LogData.mk [0] []).deployments ∧
    (0 : Int) ∉ (check_global_rate_limit 7200 (LogData.mk [0] [])).2.deployments := by
  refine ⟨by decide, by decide, by decide, by decide⟩

/-- C9 amended: `record_deployment` appends to both stored sequences, and
`check_global_rate_limit` rewrites the stored deployments to exactly the
in-window filter — a sublist of the prior history that keeps every in-window
entry but may drop out-of-window ones (so the stored length can decrease);
the recruiters audit list is never pruned. -/
theorem rate_log_update_characterization (now : Int) (log : LogData)
    (recruiter_info ip : String) :
    (check_global_rate_limit now log).2.deployments =
      log.deployments.filter (fun d => now - 3600 < d) ∧
    (check_global_rate_limit now log).2.recruiters = log.recruiters ∧
    List.Sublist (check_global_rate_limit now log).2.deployments log.deployments ∧
    (record_deployment recruiter_info ip now log).deployments = log.deployments ++ [now] ∧
    (record_deployment recruiter_info ip now log).recruiters =
      log.recruiters ++ [{ info := recruiter_info, timestamp := now, ip := ip }] := by
  rw [check_snd_eq]
  exact ⟨rfl, rfl, List.filter_sublist _, rfl, rfl⟩

/-- C10: when the persistent log file is missing, unreadable, or malformed
JSON, `load_deployment_log` yields the empty log, and `check_global_rate_limit`
on that log returns `allowed = true` with the full ceiling of 3 remaining —
loss or corruption of the log silently resets the quota. -/
theorem load_failure_resets_quota :
    load_deployment_log .missing = emptyLog ∧
    load_deployment_log .unreadable = emptyLog ∧
    load_deployment_log .malformedJson = emptyLog ∧
    ∀ now : Int,
      (check_global_rate_limit now (load_deployment_log .missing)).1 =
        (true, (MAX_DEPLOYMENTS_PER_HOUR : Int), none) := by
  refine ⟨rfl, rfl, rfl, fun now => ?_⟩
  rw [check_global_rate_limit]
  simp [load_deployment_log, emptyLog, MAX_DEPLOYMENTS_PER_HOUR]

/-- C6 counterexample: two Deploy calls in the same epoch second for the
same project generate identical instance names — two successful
`create_spot_instance` calls with `timestamp = 100` both install a
descriptor named `demo-setu-voice-ondc-100`, so the generated names of the
call sequence are not pairwise distinct. -/
theorem same_second_name_collision_cex :
    ((create_spot_instance none (some []) "setu-voice-ondc" "r1" "i1" 100 100
        (CreateOutcome.ok { status := none, natIP := none }) emptyLog).slot.map
      (fun d => d.instance_name)) = some "demo-setu-voice-ondc-100" ∧
    ((create_spot_instance none (some []) "setu-voice-ondc" "r2" "i2" 100 101
        (CreateOutcome.ok { status := none, natIP := none }) emptyLog).slot.map
      (fun d => d.instance_name)) = some "demo-setu-voice-ondc-100" ∧
    ¬ (deployNames [("setu-voice-ondc", 100), ("setu-voice-ondc", 100)]).Pairwise (· ≠ ·) := by
  refine ⟨rfl, rfl, ?_⟩
  intro hpw
  simp only [deployNames, List.map_cons, List.map_nil, List.pairwise_cons] at hpw
  exact hpw.1 _ (List.mem_singleton.mpr rfl) rfl

/-- C6 amended: the instance name is deterministic in
`(project_id, epoch second)` — `demo-<projectId>-<epochSeconds>` — and two
Deploy calls generate distinct names whenever their `(project, second)`
pairs differ (for the catalog's projects); two calls for the same project
within the same second collide, so uniqueness holds only per
`(project, second)`, not per call. -/
theorem gen_name_injective_on_catalog (p1 p2 : String) (t1 t2 : Nat)
    (h1 : p1 ∈ catalogIds) (h2 : p2 ∈ catalogIds)
    (heq : gen_instance_name p1 t1 = gen_instance_name p2 t2) :
    p1 = p2 ∧ t1 = t2 := by
  have hc1 : p1 = "setu-voice-ondc" ∨ p1 = "cityguard-response-hub" := by
    simpa [catalogIds, PROJECTS] using h1
  have hc2 : p2 = "setu-voice-ondc" ∨ p2 = "cityguard-response-hub" := by
    simpa [catalogIds, PROJECTS] using h2
  rcases hc1 with h1x | h1x <;> rcases hc2 with h2x | h2x <;> subst h1x <;> subst h2x
  · exact ⟨rfl, gen_name_same_project_inj _ _ _ heq⟩
  · exact absurd heq (gen_name_cross_ne t1 t2)
  · exact absurd heq.symm (gen_name_cross_ne t2 t1)
  · exact ⟨rfl, gen_name_same_project_inj _ _ _ heq⟩

/-- Witness for `gen_name_injective_on_catalog` at a concrete catalog
project and timestamp. -/
theorem gen_name_injective_on_catalog_witness :
    "setu-voice-ondc" = "setu-voice-ondc" ∧ (7 : Nat) = 7 :=
  gen_name_injective_on_catalog "setu-voice-ondc" "setu-voice-ondc" 7 7
    (by decide) (by decide) rfl

/-- A concrete occupant descriptor, as a deploy of `setu-voice-ondc` at
epoch second 50 would install it. -/
def d0 : ActiveInstance :=
  { project_id := "setu-voice-ondc"
    instance_name := "demo-setu-voice-ondc-50"
    external_ip := none
    created_at := 50
    expires_at := 7250
    project := setuVoiceOndc
    recruiter := "r0" }

/-- A concrete newer occupant descriptor, installed at epoch second 200. -/
def d1 : ActiveInstance :=
  { project_id := "setu-voice-ondc"
    instance_name := "demo-setu-voice-ondc-200"
    external_ip := none
    created_at := 200
    expires_at := 7400
    project := setuVoiceOndc
    recruiter := "r1" }

theorem create_not_mem_terminate_trace (slot : Option ActiveInstance)
    (listResult : Option (List Orphan)) (n : String) :
    GatewayCall.create n ∉ (terminate_all_instances slot listResult).trace := by
  cases slot <;> cases listResult <;> simp [terminate_all_instances]

/-- C1: for a valid project, every call `create_spot_instance` issues is the
eviction sequence of `terminate_all_instances` — the delete of the prior
occupant and the orphan sweep's deletes — followed by exactly one create of
the newly generated name; no create occurs inside the eviction prefix, and
on a successful create the slot holds a descriptor whose name is exactly
the newly generated one. -/
theorem deploy_evicts_before_create (slot : Option ActiveInstance)
    (listResult : Option (List Orphan)) (project_id recruiter_info ip : String)
    (timestamp : Nat) (now : Int) (outcome : CreateOutcome) (log : LogData)
    (project : Project) (hvalid : findProject project_id = some project) :
    (create_spot_instance slot listResult project_id recruiter_info ip timestamp now
        outcome log).trace =
      (terminate_all_instances slot listResult).trace ++
        [GatewayCall.create (gen_instance_name project_id timestamp)] ∧
    (∀ n, GatewayCall.create n ∉ (terminate_all_instances slot listResult).trace) ∧
    (∀ occ, slot = some occ →
      GatewayCall.delete occ.instance_name ∈ (terminate_all_instances slot listResult).trace) ∧
    (∀ insts, listResult = some insts → ∀ o ∈ insts, startsWithDemo o.name = true →
      GatewayCall.delete o.name ∈ (terminate_all_instances slot listResult).trace) ∧
    (∀ inst, outcome = CreateOutcome.ok inst →
      ∃ d, (create_spot_instance slot listResult project_id recruiter_info ip timestamp now
          outcome log).slot = some d ∧
        d.instance_name = gen_instance_name project_id timestamp) := by
  refine ⟨?_, fun n => create_not_mem_terminate_trace slot listResult n, ?_, ?_, ?_⟩
  · cases outcome <;> simp [create_spot_instance, hvalid]
  · intro occ hocc
    subst hocc
    simp [terminate_all_instances]
  · intro insts hl o ho hpre
    subst hl
    simp only [terminate_all_instances, List.mem_append, List.mem_map]
    right
    exact ⟨o, List.mem_filter.mpr ⟨ho, hpre⟩, rfl⟩
  · intro inst hout
    subst hout
    refine ⟨{ project_id := project_id,
              instance_name := gen_instance_name project_id timestamp,
              external_ip := inst.natIP,
              created_at := now,
              expires_at := now + (SPOT_INSTANCE_LIFETIME_HOURS : Int) * 3600,
              project := project,
              recruiter := recruiter_info }, ?_, rfl⟩
    simp [create_spot_instance, hvalid]

/-- Witness for `deploy_evicts_before_create`: a deploy of
`setu-voice-ondc` at second 100 over an occupied slot and one orphan issues
both deletes, then the list call, then the single create. -/
theorem deploy_evicts_before_create_witness :
    (create_spot_instance (some d0) (some [Orphan.mk "demo-old" "us-east1-c"])
        "setu-voice-ondc" "r" "i" 100 100
        (CreateOutcome.ok { status := none, natIP := some "1.2.3.4" }) emptyLog).trace =
      [GatewayCall.delete "demo-setu-voice-ondc-50", GatewayCall.list,
        GatewayCall.delete "demo-old", GatewayCall.create "demo-setu-voice-ondc-100"] := by
  have h := deploy_evicts_before_create (some d0) (some [Orphan.mk "demo-old" "us-east1-c"])
    "setu-voice-ondc" "r" "i" 100 100
    (CreateOutcome.ok { status := none, natIP := some "1.2.3.4" }) emptyLog
    setuVoiceOndc rfl
  rw [h.1]
  decide

/-- C3: when the gateway create fails (non-zero exit, timeout, or any other
exception), `create_spot_instance` returns an error, leaves the slot empty,
and leaves the persistent log untouched — so `check_global_rate_limit`
after the failed attempt returns exactly what it returns before it. -/
theorem failed_create_consumes_nothing (slot : Option ActiveInstance)
    (listResult : Option (List Orphan)) (project_id recruiter_info ip : String)
    (timestamp : Nat) (now : Int) (outcome : CreateOutcome) (log : LogData)
    (project : Project) (hvalid : findProject project_id = some project)
    (hfail : ∀ inst, outcome ≠ CreateOutcome.ok inst) :
    (∃ msg, (create_spot_instance slot listResult project_id recruiter_info ip timestamp now
        outcome log).result = DeployResult.error msg) ∧
    (create_spot_instance slot listResult project_id recruiter_info ip timestamp now
        outcome log).slot = none ∧
    (create_spot_instance slot listResult project_id recruiter_info ip timestamp now
        outcome log).log = log ∧
    ∀ t : Int, check_global_rate_limit t
        (create_spot_instance slot listResult project_id recruiter_info ip timestamp now
          outcome log).log = check_global_rate_limit t log := by
  cases outcome with
  | ok inst => exact absurd rfl (hfail inst)
  | exitNonZero stderr =>
    refine ⟨⟨"Failed to create instance: " ++ stderr, ?_⟩, ?_, ?_, fun t => ?_⟩ <;>
      simp [create_spot_instance, hvalid, terminate_all_instances]
  | timeout =>
    refine ⟨⟨"Instance creation timed out", ?_⟩, ?_, ?_, fun t => ?_⟩ <;>
      simp [create_spot_instance, hvalid, terminate_all_instances]
  | exn msg =>
    refine ⟨⟨msg, ?_⟩, ?_, ?_, fun t => ?_⟩ <;>
      simp [create_spot_instance, hvalid, terminate_all_instances]

/-- Witness for `failed_create_consumes_nothing`: a timed-out create of
`setu-voice-ondc` leaves the slot empty and the one-entry log unchanged. -/
theorem failed_create_consumes_nothing_witness :
    (create_spot_instance none none "setu-voice-ondc" "r" "i" 100 100 CreateOutcome.timeout
      (LogData.mk [5] [])).log = LogData.mk [5] [] ∧
    (create_spot_instance none none "setu-voice-ondc" "r" "i" 100 100 CreateOutcome.timeout
      (LogData.mk [5] [])).slot = none := by
  have h := failed_create_consumes_nothing none none "setu-voice-ondc" "r" "i" 100 100
    CreateOutcome.timeout (LogData.mk [5] []) setuVoiceOndc rfl
    (fun inst hx => CreateOutcome.noConfusion hx)
  exact ⟨h.2.2.1, h.2.1⟩

/-- C4 counterexample: a transient gateway error from describe — a non-zero
gcloud exit that does not mean the resource is gone — also makes
`get_active_instance_status` report `not_running` and clear the slot; the
implicit termination is not triggered by `NotFound` exclusively. -/
theorem transient_describe_error_clears_slot_cex :
    get_active_instance_status (some d0) (DescribeOutcome.gatewayError "backend 503") =
      ("not_running", none) ∧
    DescribeOutcome.gatewayError "backend 503" ≠ DescribeOutcome.notFound := by
  exact ⟨rfl, by decide⟩

/-- C4 amended: when describe reports `NotFound`, the next Status call
returns `not_running` and leaves the slot empty — but the code keys this
implicit termination on any non-zero describe exit, so a transient gateway
error clears the slot in exactly the same way; only an exception raised by
the describe call itself (e.g. a timeout) leaves the slot untouched,
returning an `error` status. -/
theorem describe_failure_slot_handling (d : ActiveInstance) (msg : String) :
    get_active_instance_status (some d) DescribeOutcome.notFound = ("not_running", none) ∧
    get_active_instance_status (some d) (DescribeOutcome.gatewayError msg) =
      ("not_running", none) ∧
    get_active_instance_status (some d) (DescribeOutcome.timeoutExn msg) = ("error", some d) ∧
    get_active_instance_status none DescribeOutcome.notFound = ("not_running", none) :=
  ⟨rfl, rfl, rfl, rfl⟩

/-- C5 counterexample: a timer scheduled while `demo-setu-voice-ondc-100`
held the slot fires after the newer occupant `demo-setu-voice-ondc-200`
has taken it; `auto_terminate` performs no name re-check and deletes the
newer occupant, instead of deleting nothing. -/
theorem stale_timer_deletes_newer_occupant_cex :
    "demo-setu-voice-ondc-100" ≠ d1.instance_name ∧
    GatewayCall.delete d1.instance_name ∈ (auto_terminate (some d1) (some [])).trace ∧
    (auto_terminate (some d1) (some [])).slot = none := by
  exact ⟨by decide, by decide, rfl⟩

/-- C5 amended: the deferred eviction spawned by a successful deploy fires
`terminate_all_instances` unconditionally — it captures no scheduled name
and re-checks nothing; whatever occupant holds the slot when it fires is
deleted (plus the demo-prefix orphan sweep), and the slot is left empty. -/
theorem auto_terminate_is_unconditional (slotAtFiring : Option ActiveInstance)
    (listResult : Option (List Orphan)) (d : ActiveInstance) :
    auto_terminate slotAtFiring listResult = terminate_all_instances slotAtFiring listResult ∧
    GatewayCall.delete d.instance_name ∈ (auto_terminate (some d) listResult).trace ∧
    (auto_terminate (some d) listResult).slot = none := by
  refine ⟨rfl, ?_, rfl⟩
  cases listResult <;> simp [auto_terminate, terminate_all_instances]

/-- C8 counterexample: `SUSPENDED` is a lifecycle phase the provider can
report for a compute instance, but it is absent from `status_map`, so the
returned status is `"unknown"` — outside the fixed set
`{not_running, starting, running, stopping}`. -/
theorem status_escapes_fixed_set_cex :
    (get_active_instance_status (some d0)
        (DescribeOutcome.ok { status := some "SUSPENDED", natIP := none })).1 = "unknown" ∧
    "unknown" ∉ ["not_running", "starting", "running", "stopping"] := by
  exact ⟨rfl, by decide⟩

theorem status_map_cases (s : String) :
    status_map s = "running" ∨ status_map s = "starting" ∨ status_map s = "stopping" ∨
      status_map s = "not_running" ∨ status_map s = "unknown" := by
  rw [status_map]
  split_ifs <;> simp

/-- C8 amended: the status `get_active_instance_status` returns always lies
in `{not_running, starting, running, stopping, unknown, error}`: the five
gcloud phases in `status_map` land in the claimed four-element set, but any
other provider-reported phase maps to `"unknown"` and a describe exception
yields `"error"`. -/
theorem status_vocabulary (slot : Option ActiveInstance) (outcome : DescribeOutcome) :
    (get_active_instance_status slot outcome).1 ∈
      ["not_running", "starting", "running", "stopping", "unknown", "error"] ∧
    status_map "RUNNING" = "running" ∧ status_map "STAGING" = "starting" ∧
    status_map "PROVISIONING" = "starting" ∧ status_map "STOPPING" = "stopping" ∧
    status_map "TERMINATED" = "not_running" := by
  refine ⟨?_, rfl, rfl, rfl, rfl, rfl⟩
  cases slot with
  | none => simp [get_active_instance_status]
  | some d =>
    cases outcome with
    | notFound => simp [get_active_instance_status]
    | gatewayError msg => simp [get_active_instance_status]
    | timeoutExn msg => simp [get_active_instance_status]
    | ok data =>
      have h := status_map_cases (data.status.getD "UNKNOWN")
      rcases h with h | h | h | h | h <;>
        simp [get_active_instance_status, h]

end OnDemand
